import Mathlib

/-!
# Verification of the ADB USB-tethering controller

A shallow embedding of the core of the tethering controller
(file lxpanic.py): device discovery and authorization
(check_adb_connection), the host interface probe
(get_linux_interface_status), and the enable/disable command
pipelines (on_button_pressed), together with proofs of the
specified properties.

External processes are modelled by an oracle mapping the full
command line (a list of strings) to the spawn result: either a
captured outcome (exit code, stdout, stderr), a file-not-found
failure, or another spawn failure.  The UI rendering layer is out
of scope; the reactive fields written by the core (adb_status,
device_info, adb_ready, linux_iface_status) are returned as
structured values, with the status strings of the source mapped
one-to-one onto closed enumerations as described in the design
notes of the specification.
-/

namespace Tether

/-! ## String utilities (Python semantics on lists of characters) -/

/-- Whitespace characters removed by the Python str.strip method
(space, tab, newline, carriage return, vertical tab, form feed). -/
def isPyWS (c : Char) : Bool :=
  c == ' ' || c == '\t' || c == '\n' || c == '\r' || c.val == 11 || c.val == 12

/-- Python str.strip: remove whitespace from both ends. -/
def stripWS (l : List Char) : List Char :=
  ((l.dropWhile isPyWS).reverse.dropWhile isPyWS).reverse

/-- Split a character list on a separator character. -/
def splitOnCh (sep : Char) : List Char → List (List Char)
  | [] => [[]]
  | c :: rest =>
    if c == sep then [] :: splitOnCh sep rest
    else
      match splitOnCh sep rest with
      | [] => [[c]]
      | h :: t => (c :: h) :: t

/-- Split a character list on newline characters.  Models Python
str.splitlines on newline-terminated bridge output (after stripWS the
ends carry no newlines, so the two functions agree on the lines that
matter; an empty input yields one empty line here, which every caller
filters out). -/
def splitOnNl (l : List Char) : List (List Char) :=
  splitOnCh '\n' l

/-- Does the list start with the given needle? -/
def startsWithCh : List Char → List Char → Bool
  | _, [] => true
  | [], _ :: _ => false
  | c :: cs, d :: ds => c == d && startsWithCh cs ds

/-- Substring containment on character lists (Python in operator). -/
def containsSub : List Char → List Char → Bool
  | [], needle => needle.isEmpty
  | c :: rest, needle => startsWithCh (c :: rest) needle || containsSub rest needle

/-- Substring containment on strings (Python in operator). -/
def strContains (s sub : String) : Bool :=
  containsSub s.toList sub.toList

/-- The suffix following the first occurrence of the needle, if any. -/
def afterFirstOcc (needle : List Char) : List Char → Option (List Char)
  | [] => if needle.isEmpty then some [] else none
  | c :: rest =>
    if startsWithCh (c :: rest) needle then some ((c :: rest).drop needle.length)
    else afterFirstOcc needle rest

/-! ## External command model -/

/-- Captured result of a spawned external process: exit code and the
fully drained stdout and stderr. -/
structure CommandOutcome where
  exitCode : Int
  stdout : String
  stderr : String
  deriving Repr, DecidableEq

/-- Result of attempting to spawn an external command: a captured
outcome, a FileNotFoundError, or any other spawn exception. -/
inductive SpawnResult where
  | ok (o : CommandOutcome)
  | notFound
  | failed
  deriving Repr, DecidableEq

/-- The external world: maps a full command line to its spawn result.
Fixed for the duration of one modelled call sequence. -/
def Oracle := List String → SpawnResult

/-- Configuration constant ADB_PATH of the source. -/
def ADB_PATH : String := "adb"

/-- Initial value of the DEVICE_SERIAL configuration variable. -/
def DEVICE_SERIAL : String := ""

/-! ## run_adb_command -/

/-- The full command line built by run_adb_command: the bridge
executable, the serial selector -s when a serial is bound
(Python truthiness: the empty string counts as unbound), then the
per-call arguments. -/
def fullCommand (serial : String) (args : List String) : List String :=
  ADB_PATH :: ((if serial == "" then [] else ["-s", serial]) ++ args)

/-- Embedding of run_adb_command: spawn the full command and report
success exactly when the process exits with code 0; a
FileNotFoundError or any other spawn exception reports failure. -/
def run_adb_command (serial : String) (args : List String) (oracle : Oracle) : Bool :=
  match oracle (fullCommand serial args) with
  | .ok o => o.exitCode == 0
  | .notFound => false
  | .failed => false

/-- A spawn of the given command line succeeds: it is captured and
exits with code 0. -/
def spawnSucceeds (oracle : Oracle) (cmd : List String) : Bool :=
  match oracle cmd with
  | .ok o => o.exitCode == 0
  | .notFound => false
  | .failed => false

/-! ## Device discovery and authorization (check_adb_connection) -/

/-- The device-line filter and field extraction of
check_adb_connection: strip the output, split into lines, keep each
line that contains the substring "device" and does not contain
"List of devices attached", and take the text before the first tab
as the serial. -/
def parseDevices (stdout : String) : List String :=
  ((splitOnNl (stripWS stdout.toList)).filter
      (fun l => containsSub l ("device".toList) &&
                !containsSub l ("List of devices attached".toList))).map
    (fun l => (l.takeWhile (fun c => c ≠ '\t')).asString)

/-- Connection states written to adb_status, one constructor per
assignment in the source: Connected, AuthFailed ("Auth Failed"),
Disconnected, MultipleDevices ("Multiple Devices"),
SpecifiedNotFound ("Specified Device Not Found"), AdbNotFound
("ERROR: ADB command not found"), ConnError ("Connection Error"). -/
inductive ConnState where
  | Connected
  | AuthFailed
  | Disconnected
  | MultipleDevices
  | SpecifiedNotFound
  | AdbNotFound
  | ConnError
  deriving Repr, DecidableEq

/-- The state check_adb_connection leaves behind: the (possibly
auto-resolved) DEVICE_SERIAL global and the reactive fields
adb_status, device_info and adb_ready. -/
structure CheckResult where
  serial : String
  status : ConnState
  info : String
  ready : Bool
  deriving Repr, DecidableEq

/-- The stderr marker the authorization probe looks for. -/
def unauthorizedMarker : String := "device unauthorized"

/-- The trailing authorization probe of check_adb_connection: shell a
trivial echo to the bound serial and inspect stderr for the
unauthorized marker.  The exit code of the probe is not examined.
A spawn exception here is caught by the except clauses of
check_adb_connection after DEVICE_SERIAL was already assigned, so the
serial field keeps the bound serial in every branch. -/
def authProbe (s : String) (oracle : Oracle) : CheckResult :=
  match oracle [ADB_PATH, "-s", s, "shell", "echo", "test"] with
  | .ok t =>
    if strContains t.stderr unauthorizedMarker then
      ⟨s, .AuthFailed, s, false⟩
    else
      ⟨s, .Connected, s, true⟩
  | .notFound => ⟨s, .AdbNotFound, "N/A", false⟩
  | .failed => ⟨s, .ConnError, "N/A", false⟩

/-- Embedding of check_adb_connection.  The argument is the value of
the DEVICE_SERIAL global before the call; the result carries its value
after the call together with the reactive status fields. -/
def check_adb_connection (serial : String) (oracle : Oracle) : CheckResult :=
  match oracle [ADB_PATH, "devices"] with
  | .notFound => ⟨serial, .AdbNotFound, "N/A", false⟩
  | .failed => ⟨serial, .ConnError, "N/A", false⟩
  | .ok o =>
    match parseDevices o.stdout with
    | [] => ⟨serial, .Disconnected, "N/A", false⟩
    | d :: ds =>
      if !ds.isEmpty && serial == "" then
        ⟨serial, .MultipleDevices,
          "Please specify serial (found: " ++ String.intercalate ", " (d :: ds) ++ ")",
          false⟩
      else
        if serial == "" then authProbe d oracle
        else if !(d :: ds).contains serial then
          ⟨serial, .SpecifiedNotFound, serial, false⟩
        else authProbe serial oracle

/-! ## Host interface probe (get_linux_interface_status)

The source applies the Python regular expression

  a run of digits, ": ", a captured group matching one of the
  alternatives usb(digits), rndis(digits) or enp(non-space run)u(digits),
  then ": <", then any same-line text containing the literal
  "BROADCAST,MULTICAST,UP", then any same-line text, then ">"

with re.search over the link listing, and on a match queries the
captured interface for an IPv4 address with a second regular
expression, "inet " followed by a dotted quad of 1-3 digit groups.
The functions below embed those two searches with Python semantics:
leftmost match wins, alternatives are tried in order (here the
alternatives are mutually exclusive on their first character),
quantifiers are greedy with backtracking, and the dot does not match
a newline. -/

/-- The consecutive flag text required by the link pattern. -/
def flagMarker : List Char := "BROADCAST,MULTICAST,UP".toList

/-- The tail of the link pattern after the opening angle bracket:
some same-line text containing flagMarker followed later (still on
the same line) by a closing angle bracket. -/
def flagsThenGt (r : List Char) : Bool :=
  match afterFirstOcc flagMarker (r.takeWhile (fun c => c ≠ '\n')) with
  | some rest => rest.contains '>'
  | none => false

/-- Candidate matches of the name group enp(non-space run)u(digits),
paired with the remaining input, in backtracking priority order: the
greedy non-space run is tried longest first; the digit run after the
letter u is forced maximal because the pattern continues with a colon.
The input starts right after the literal enp. -/
def enpCandidates (s : List Char) : List (List Char × List Char) :=
  let m := s.takeWhile (fun c => !isPyWS c)
  (List.range m.length).reverse.filterMap (fun k =>
    if k == 0 then none
    else
      match s.drop k with
      | 'u' :: r2 =>
        let ds := r2.takeWhile Char.isDigit
        if ds.isEmpty then none
        else some ("enp".toList ++ s.take k ++ 'u' :: ds, r2.drop ds.length)
      | _ => none)

/-- Candidate matches of the captured name group, with the remaining
input, in priority order.  The three alternatives begin with distinct
letters, so at most one contributes; within the usb and rndis
alternatives the trailing digit run is forced maximal because the
pattern continues with a colon. -/
def nameCandidates (s : List Char) : List (List Char × List Char) :=
  if startsWithCh s ("usb".toList) then
    let r := s.drop 3
    let ds := r.takeWhile Char.isDigit
    if ds.isEmpty then [] else [("usb".toList ++ ds, r.drop ds.length)]
  else if startsWithCh s ("rndis".toList) then
    let r := s.drop 5
    let ds := r.takeWhile Char.isDigit
    if ds.isEmpty then [] else [("rndis".toList ++ ds, r.drop ds.length)]
  else if startsWithCh s ("enp".toList) then
    enpCandidates (s.drop 3)
  else []

/-- Try to match the link pattern anchored at the start of the input;
return the captured interface name on success.  The leading digit run
is forced maximal because the pattern continues with a colon. -/
def linkMatchAt (s : List Char) : Option (List Char) :=
  let ds := s.takeWhile Char.isDigit
  if ds.isEmpty then none
  else
    match s.drop ds.length with
    | ':' :: ' ' :: r2 =>
      (nameCandidates r2).findSome? (fun c =>
        match c.2 with
        | ':' :: ' ' :: '<' :: r4 => if flagsThenGt r4 then some c.1 else none
        | _ => none)
    | _ => none

/-- re.search for the link pattern: try every start position from the
left and return the first captured interface name. -/
def tetherLinkSearch : List Char → Option (List Char)
  | [] => none
  | c :: rest =>
    match linkMatchAt (c :: rest) with
    | some name => some name
    | none => tetherLinkSearch rest

/-- Match a 1-3 digit dotted-quad group followed by a dot: the greedy
1-3 digit quantifier succeeds exactly when the full digit run has
length 1-3 and is followed by a dot (a shorter cut would place a digit
where the dot is required).  Returns the digits and the input after
the dot. -/
def quadGroupDot (s : List Char) : Option (List Char × List Char) :=
  let ds := s.takeWhile Char.isDigit
  if ds.isEmpty || ds.length > 3 then none
  else
    match s.drop ds.length with
    | '.' :: r => some (ds, r)
    | _ => none

/-- Try to match the dotted-quad capture of the address pattern
anchored at the start of the input (the text after "inet ").  The
final group has no continuation, so it greedily takes up to three
digits. -/
def quadMatchAt (s : List Char) : Option (List Char) :=
  match quadGroupDot s with
  | none => none
  | some (a, r1) =>
    match quadGroupDot r1 with
    | none => none
    | some (b, r2) =>
      match quadGroupDot r2 with
      | none => none
      | some (c, r3) =>
        let ds := r3.takeWhile Char.isDigit
        if ds.isEmpty then none
        else some (a ++ '.' :: b ++ '.' :: c ++ '.' :: ds.take 3)

/-- re.search for the address pattern "inet " followed by a dotted
quad: try every start position from the left and return the first
captured address. -/
def inetSearch : List Char → Option (List Char)
  | [] => none
  | c :: rest =>
    (if startsWithCh (c :: rest) ("inet ".toList) then
      quadMatchAt ((c :: rest).drop 5)
    else none).orElse (fun _ => inetSearch rest)

/-- Interface states written to linux_iface_status, one constructor
per assignment in the source: Detected (name with IP), DetectedNoIP
(name, no IP), NotDetected ("Not Detected"), ProbeError
("ERROR: ip missing", the FileNotFoundError branch), ErrorChecking
("Error Checking", any other exception). -/
inductive IfaceState where
  | Detected (name ip : String)
  | DetectedNoIP (name : String)
  | NotDetected
  | ProbeError
  | ErrorChecking
  deriving Repr, DecidableEq

/-- Embedding of get_linux_interface_status: list the host links, run
the link pattern search over the stripped output; on a match query
the captured interface for IPv4 addresses and run the address pattern
search; classify accordingly.  The exit codes of both listing
commands are never examined.  A FileNotFoundError from either spawn
is caught by the same except clause and maps to ProbeError. -/
def get_linux_interface_status (oracle : Oracle) : IfaceState :=
  match oracle ["ip", "link", "show"] with
  | .notFound => .ProbeError
  | .failed => .ErrorChecking
  | .ok o =>
    match tetherLinkSearch (stripWS o.stdout.toList) with
    | none => .NotDetected
    | some name =>
      match oracle ["ip", "-4", "addr", "show", "dev", name.asString] with
      | .notFound => .ProbeError
      | .failed => .ErrorChecking
      | .ok o2 =>
        match inetSearch (stripWS o2.stdout.toList) with
        | some ip => .Detected name.asString ip.asString
        | none => .DetectedNoIP name.asString

/-! ## Tether pipelines (on_button_pressed) -/

/-- One pipeline step: the full command line spawned and whether
run_adb_command reported success for it. -/
structure StepResult where
  cmd : List String
  ok : Bool
  deriving Repr, DecidableEq

/-- Spawn one pipeline step through run_adb_command and record it. -/
def runStep (serial : String) (args : List String) (oracle : Oracle) : StepResult :=
  ⟨fullCommand serial args, run_adb_command serial args oracle⟩

/-- Argument lists of the four enable-pipeline steps. -/
def rootArgs : List String := ["root"]

/-- Step 2 of the enable pipeline: clear the DUN-required policy. -/
def dunOffArgs : List String :=
  ["shell", "settings", "put", "global", "tether_dun_required", "0"]

/-- Step 3 of the enable pipeline: switch the USB function to rndis. -/
def rndisArgs : List String := ["shell", "svc", "usb", "setFunctions", "rndis"]

/-- Step 4 of the enable pipeline: disable hardware offload. -/
def offloadOffArgs : List String :=
  ["shell", "settings", "put", "global", "tether_offload_disabled", "1"]

/-- Step 1 of the disable pipeline: reset the offload-disabled flag. -/
def offloadRestoreArgs : List String :=
  ["shell", "settings", "put", "global", "tether_offload_disabled", "0"]

/-- Step 2 of the disable pipeline: restore the DUN-required policy. -/
def dunRestoreArgs : List String :=
  ["shell", "settings", "put", "global", "tether_dun_required", "1"]

/-- Step 3 of the disable pipeline: restore the default USB functions. -/
def mtpAdbArgs : List String := ["shell", "svc", "usb", "setFunctions", "mtp,adb"]

/-- The enable pipeline of on_button_pressed: a best-effort root step
whose result is discarded, then the DUN step; the rndis step runs only
if the DUN step succeeded, and the offload step only if the rndis step
succeeded.  Returns the steps actually spawned, in order. -/
def enablePipeline (serial : String) (oracle : Oracle) : List StepResult :=
  let s1 := runStep serial rootArgs oracle
  let s2 := runStep serial dunOffArgs oracle
  if s2.ok then
    let s3 := runStep serial rndisArgs oracle
    if s3.ok then
      let s4 := runStep serial offloadOffArgs oracle
      [s1, s2, s3, s4]
    else [s1, s2, s3]
  else [s1, s2]

/-- The disable pipeline of on_button_pressed: reset the offload flag,
then (only on success) restore the DUN policy, then (only on success)
restore the default USB functions.  Returns the steps actually
spawned, in order. -/
def disablePipeline (serial : String) (oracle : Oracle) : List StepResult :=
  let s1 := runStep serial offloadRestoreArgs oracle
  if s1.ok then
    let s2 := runStep serial dunRestoreArgs oracle
    if s2.ok then
      let s3 := runStep serial mtpAdbArgs oracle
      [s1, s2, s3]
    else [s1, s2]
  else [s1]

/-- Embedding of on_button_pressed: the guard returns immediately
unless a serial is bound and adb_ready holds; otherwise the pipeline
selected by the button id runs and a follow-up refresh is triggered.
Returns the adb steps the handler itself spawned and whether
action_refresh_status was invoked afterwards. -/
def on_button_pressed (btn : String) (serial : String) (ready : Bool)
    (oracle : Oracle) : List StepResult × Bool :=
  if serial == "" || !ready then ([], false)
  else if btn == "enable-btn" then (enablePipeline serial oracle, true)
  else if btn == "disable-btn" then (disablePipeline serial oracle, true)
  else if btn == "refresh-btn" then ([], true)
  else ([], false)

/-! ## Device-side effect model -/

/-- The device settings the pipelines touch. -/
structure DeviceSettings where
  usbFunctions : String
  tether_dun_required : String
  tether_offload_disabled : String
  deriving Repr, DecidableEq

/-- Strip the bridge executable and the optional -s serial selector
from a full command line, leaving the per-call arguments. -/
def dropAdbSelector : List String → List String
  | [] => []
  | _ :: rest =>
    match rest with
    | s :: _ :: r => if s == "-s" then r else rest
    | _ => rest

/-- Modelled from the spec: the device-side effect of the bridge
commands of section 6 (set-usb-function, put-setting issued as shell
svc usb setFunctions and shell settings put global); the device is
external to the repository, so its state transition is taken from the
external-interface description.  Any other command (root, the echo
probe, the listing commands) leaves the settings unchanged. -/
def applyAdbCommand (d : DeviceSettings) (cmd : List String) : DeviceSettings :=
  match dropAdbSelector cmd with
  | "shell" :: "settings" :: "put" :: "global" :: key :: v :: [] =>
    if key == "tether_dun_required" then { d with tether_dun_required := v }
    else if key == "tether_offload_disabled" then { d with tether_offload_disabled := v }
    else d
  | "shell" :: "svc" :: "usb" :: "setFunctions" :: f :: [] => { d with usbFunctions := f }
  | _ => d

/-- Modelled from the spec: a pipeline step mutates the device exactly
when the spawned command succeeded; a failed or unspawned command
leaves the settings unchanged. -/
def applyStep (d : DeviceSettings) (s : StepResult) : DeviceSettings :=
  if s.ok then applyAdbCommand d s.cmd else d

/-- Apply a spawned step trace to the device settings, in order. -/
def applyTrace (d : DeviceSettings) (tr : List StepResult) : DeviceSettings :=
  tr.foldl applyStep d

/-! ## Application state over call sequences -/

/-- The process-wide state the core mutates across calls: the
DEVICE_SERIAL global and the reactive fields. -/
structure AppState where
  serial : String
  status : ConnState
  info : String
  ready : Bool
  iface : IfaceState
  deriving Repr, DecidableEq

/-- Embedding of action_refresh_status: check_adb_connection followed
by get_linux_interface_status, threading the serial global. -/
def action_refresh_status (st : AppState) (oracle : Oracle) : AppState :=
  let r := check_adb_connection st.serial oracle
  ⟨r.serial, r.status, r.info, r.ready, get_linux_interface_status oracle⟩

/-- One externally triggered operation: a timer or hotkey refresh, or
a button press.  Each operation carries the oracle describing the
external world at that moment. -/
inductive Op where
  | refresh (oracle : Oracle)
  | button (btn : String) (oracle : Oracle)

/-- Run one operation against the application state.  A button press
mutates the state only through the follow-up refresh it triggers. -/
def runOp (st : AppState) : Op → AppState
  | .refresh oracle => action_refresh_status st oracle
  | .button btn oracle =>
    let r := on_button_pressed btn st.serial st.ready oracle
    if r.2 then action_refresh_status st oracle else st

/-- Run a sequence of operations, oldest first. -/
def runOps (st : AppState) (ops : List Op) : AppState :=
  ops.foldl runOp st

/-! ## Specification-side predicates

These definitions follow the words of the specification (not the
source) and exist only to compare the two: the specification counts a
discovery line as an attached device when its state field, the text
after the first tab, contains the token "device", and counts a link as
a tethering candidate when its name has a USB-network or RNDIS-style
prefix and its flag list contains BROADCAST, MULTICAST and UP. -/

/-- Follows the words of the spec: the state field of a discovery
line, the text after the first tab. -/
def specStateField (l : List Char) : List Char :=
  ((l.dropWhile (fun c => c ≠ '\t')).drop 1)

/-- Follows the words of the spec: a line counts as an attached device
exactly when its state field contains the literal token "device". -/
def specDeviceLine (l : List Char) : Bool :=
  containsSub (specStateField l) ("device".toList)

/-- Follows the words of the spec: the serials of the attached-device
lines of a discovery output (header excluded, as in the spec). -/
def specDeviceSerials (stdout : String) : List String :=
  ((splitOnNl (stripWS stdout.toList)).filter
      (fun l => specDeviceLine l &&
                !containsSub l ("List of devices attached".toList))).map
    (fun l => (l.takeWhile (fun c => c ≠ '\t')).asString)

/-- Follows the words of the spec: a USB-network or RNDIS-style
interface name (usb, rndis or enp prefix). -/
def specTetherName (name : String) : Bool :=
  startsWithCh name.toList ("usb".toList) ||
  startsWithCh name.toList ("rndis".toList) ||
  startsWithCh name.toList ("enp".toList)

/-- Follows the words of the spec: a link is selectable when its name
matches a tethering naming convention and its flag list includes both
broadcast/multicast capability and administratively-up. -/
def specLinkSelectable (name : String) (flags : List String) : Bool :=
  specTetherName name && flags.contains "BROADCAST" &&
  flags.contains "MULTICAST" && flags.contains "UP"

/-- Follows the words of the spec: the flag list of a link line, the
comma-separated tokens between the angle brackets. -/
def specLinkFlags (line : List Char) : List String :=
  (splitOnCh ','
      (((line.dropWhile (fun c => c ≠ '<')).drop 1).takeWhile (fun c => c ≠ '>'))).map
    List.asString

/-! ## Concrete scenarios used by witnesses and counterexamples -/

/-- Discovery output whose only non-header line has state offline but
carries the text device inside its serial. -/
def offlineSerialOut : String := "List of devices attached\nmydevice1\toffline"

/-- External world for the offlineSerialOut scenario: the echo probe
to the adopted serial answers cleanly. -/
def offlineSerialOracle : Oracle := fun cmd =>
  if cmd == ["adb", "devices"] then .ok ⟨0, offlineSerialOut, ""⟩
  else if cmd == ["adb", "-s", "mydevice1", "shell", "echo", "test"] then .ok ⟨0, "test", ""⟩
  else .notFound

/-- Discovery output with two attached devices plus an offline line
whose serial carries the text device. -/
def ambiguousOut : String :=
  "List of devices attached\nA1\tdevice\nB2\tdevice\nmydevice9\toffline"

/-- External world for the ambiguousOut scenario. -/
def ambiguousOracle : Oracle := fun cmd =>
  if cmd == ["adb", "devices"] then .ok ⟨0, ambiguousOut, ""⟩ else .notFound

/-- A link listing whose only candidate interface carries the PROMISC
flag between MULTICAST and UP, as iproute2 prints it for a
promiscuous interface. -/
def promiscLinkOut : String :=
  "3: usb0: <BROADCAST,MULTICAST,PROMISC,UP,LOWER_UP> mtu 1500 qdisc fq state UP mode DEFAULT group default qlen 1000"

/-- External world for the promiscLinkOut scenario: the address query
for usb0 would even report an address. -/
def promiscLinkOracle : Oracle := fun cmd =>
  if cmd == ["ip", "link", "show"] then .ok ⟨0, promiscLinkOut, ""⟩
  else if cmd == ["ip", "-4", "addr", "show", "dev", "usb0"] then
    .ok ⟨0, "inet 192.168.42.1/24", ""⟩
  else .notFound

/-- The link listing of the worked example of the spec: a loopback
line followed by a usb0 link that is up. -/
def exampleLinkOut : String :=
  "1: lo: <LOOPBACK,UP,LOWER_UP> mtu 65536\n3: usb0: <BROADCAST,MULTICAST,UP,LOWER_UP> mtu 1500"

/-- The address query answer of the worked example of the spec. -/
def exampleAddrOut : String :=
  "inet 192.168.42.1/24 brd 192.168.42.255 scope global usb0"

/-- The worked example of the spec as an external world. -/
def exampleLinkOracle : Oracle := fun cmd =>
  if cmd == ["ip", "link", "show"] then .ok ⟨0, exampleLinkOut, ""⟩
  else if cmd == ["ip", "-4", "addr", "show", "dev", "usb0"] then
    .ok ⟨0, exampleAddrOut, ""⟩
  else .notFound

/-- A link listing with no tethering candidate at all. -/
def noLinkOut : String := "1: lo: <LOOPBACK,UP,LOWER_UP> mtu 65536"

/-- External world for the noLinkOut scenario. -/
def noLinkOracle : Oracle := fun cmd =>
  if cmd == ["ip", "link", "show"] then .ok ⟨0, noLinkOut, ""⟩ else .notFound

/-- A discovery output whose non-header lines are unauthorized or
offline and carry no occurrence of the text device. -/
def unauthorizedOnlyOut : String :=
  "List of devices attached\nX1\tunauthorized\nX2\toffline"

/-- External world for the unauthorizedOnlyOut scenario. -/
def unauthorizedOnlyOracle : Oracle := fun cmd =>
  if cmd == ["adb", "devices"] then .ok ⟨0, unauthorizedOnlyOut, ""⟩ else .notFound

/-- An external world in which every spawn succeeds with exit code 0
and empty output. -/
def allOkOracle : Oracle := fun _ => .ok ⟨0, "", ""⟩

/-- An external world in which the DUN step of the enable pipeline
exits nonzero and every other spawn succeeds. -/
def dunFailsOracle : Oracle := fun cmd =>
  if cmd == fullCommand "SER1" dunOffArgs then .ok ⟨1, "", "failure"⟩
  else .ok ⟨0, "", ""⟩

/-- An external world for a configured serial whose echo probe exits
nonzero with unrelated stderr text. -/
def noisyProbeOracle : Oracle := fun cmd =>
  if cmd == ["adb", "devices"] then .ok ⟨0, "List of devices attached\nXYZ77\tdevice", ""⟩
  else if cmd == ["adb", "-s", "XYZ77", "shell", "echo", "test"] then
    .ok ⟨1, "", "error: closed"⟩
  else .notFound

end Tether

namespace Tether

/-! ## Helper lemmas -/

lemma dropSel_full (serial a : String) (args : List String) (ha : (a == "-s") = false) :
    dropAdbSelector (fullCommand serial (a :: args)) = a :: args := by
  by_cases hs : serial == "" <;> cases args <;>
    simp [fullCommand, dropAdbSelector, hs, ha]

lemma apply_root (serial : String) (d : DeviceSettings) :
    applyAdbCommand d (fullCommand serial rootArgs) = d := by
  have h := dropSel_full serial "root" [] (by decide)
  simp [applyAdbCommand, rootArgs] at h ⊢
  rw [h]
  rfl

lemma apply_dunOff (serial : String) (d : DeviceSettings) :
    applyAdbCommand d (fullCommand serial dunOffArgs) =
      { d with tether_dun_required := "0" } := by
  have h := dropSel_full serial "shell"
    ["settings", "put", "global", "tether_dun_required", "0"] (by decide)
  simp [applyAdbCommand, dunOffArgs] at h ⊢
  rw [h]
  rfl

lemma apply_rndis (serial : String) (d : DeviceSettings) :
    applyAdbCommand d (fullCommand serial rndisArgs) =
      { d with usbFunctions := "rndis" } := by
  have h := dropSel_full serial "shell" ["svc", "usb", "setFunctions", "rndis"] (by decide)
  simp [applyAdbCommand, rndisArgs] at h ⊢
  rw [h]
  rfl

lemma apply_offloadOff (serial : String) (d : DeviceSettings) :
    applyAdbCommand d (fullCommand serial offloadOffArgs) =
      { d with tether_offload_disabled := "1" } := by
  have h := dropSel_full serial "shell"
    ["settings", "put", "global", "tether_offload_disabled", "1"] (by decide)
  simp [applyAdbCommand, offloadOffArgs] at h ⊢
  rw [h]
  rfl

lemma apply_offloadRestore (serial : String) (d : DeviceSettings) :
    applyAdbCommand d (fullCommand serial offloadRestoreArgs) =
      { d with tether_offload_disabled := "0" } := by
  have h := dropSel_full serial "shell"
    ["settings", "put", "global", "tether_offload_disabled", "0"] (by decide)
  simp [applyAdbCommand, offloadRestoreArgs] at h ⊢
  rw [h]
  rfl

lemma apply_dunRestore (serial : String) (d : DeviceSettings) :
    applyAdbCommand d (fullCommand serial dunRestoreArgs) =
      { d with tether_dun_required := "1" } := by
  have h := dropSel_full serial "shell"
    ["settings", "put", "global", "tether_dun_required", "1"] (by decide)
  simp [applyAdbCommand, dunRestoreArgs] at h ⊢
  rw [h]
  rfl

lemma apply_mtpAdb (serial : String) (d : DeviceSettings) :
    applyAdbCommand d (fullCommand serial mtpAdbArgs) =
      { d with usbFunctions := "mtp,adb" } := by
  have h := dropSel_full serial "shell" ["svc", "usb", "setFunctions", "mtp,adb"] (by decide)
  simp [applyAdbCommand, mtpAdbArgs] at h ⊢
  rw [h]
  rfl

lemma applyStep_runStep (serial : String) (args : List String) (oracle : Oracle)
    (d : DeviceSettings) :
    applyStep d (runStep serial args oracle) =
      if run_adb_command serial args oracle then applyAdbCommand d (fullCommand serial args)
      else d := rfl

/-! ## Claim C1 -/

/-- Claim C1: a button-triggered transition (any button) with no bound
serial or with adb_ready false fails immediately: the handler spawns
no adb command, triggers no follow-up refresh, and the device settings
are unchanged. -/
theorem guard_blocks_pipeline (btn serial : String) (ready : Bool) (oracle : Oracle)
    (d : DeviceSettings) (h : serial = "" ∨ ready = false) :
    on_button_pressed btn serial ready oracle = ([], false) ∧
    applyTrace d (on_button_pressed btn serial ready oracle).1 = d := by
  have hg : (serial == "" || !ready) = true := by
    rcases h with h | h <;> simp [h]
  refine ⟨?_, ?_⟩ <;> simp [on_button_pressed, hg, applyTrace]

/-- Witness for guard_blocks_pipeline: the enable button with adb_ready
true but no bound serial does nothing. -/
theorem guard_blocks_pipeline_witness :
    on_button_pressed "enable-btn" "" true allOkOracle = ([], false) ∧
    applyTrace ⟨"mtp,adb", "1", "0"⟩
        (on_button_pressed "enable-btn" "" true allOkOracle).1 =
      ⟨"mtp,adb", "1", "0"⟩ :=
  guard_blocks_pipeline "enable-btn" "" true allOkOracle ⟨"mtp,adb", "1", "0"⟩ (Or.inl rfl)

/-! ## Claim C2 -/

/-- Claim C2: in the enable pipeline the root step is best-effort (the
DUN step is spawned whatever the root step returned); if the DUN step
fails the rndis and offload steps are never spawned; if the rndis step
fails the offload step is never spawned; the spawned commands are
always an initial segment of the fixed forward sequence (so no
rollback command is ever issued); and a successful DUN step is not
rolled back by a later failure: the policy it wrote survives to the
end of the pipeline. -/
theorem enable_pipeline_short_circuit (serial : String) (oracle : Oracle)
    (d : DeviceSettings) :
    (enablePipeline serial oracle).take 2 =
      [runStep serial rootArgs oracle, runStep serial dunOffArgs oracle] ∧
    (run_adb_command serial dunOffArgs oracle = false →
      enablePipeline serial oracle =
        [runStep serial rootArgs oracle, runStep serial dunOffArgs oracle]) ∧
    (run_adb_command serial dunOffArgs oracle = true →
      run_adb_command serial rndisArgs oracle = false →
      enablePipeline serial oracle =
        [runStep serial rootArgs oracle, runStep serial dunOffArgs oracle,
          runStep serial rndisArgs oracle]) ∧
    (run_adb_command serial dunOffArgs oracle = true →
      run_adb_command serial rndisArgs oracle = true →
      enablePipeline serial oracle =
        [runStep serial rootArgs oracle, runStep serial dunOffArgs oracle,
          runStep serial rndisArgs oracle, runStep serial offloadOffArgs oracle]) ∧
    ((enablePipeline serial oracle).map StepResult.cmd =
      ([rootArgs, dunOffArgs, rndisArgs, offloadOffArgs].map (fullCommand serial)).take
        (enablePipeline serial oracle).length) ∧
    (run_adb_command serial dunOffArgs oracle = true →
      (applyTrace d (enablePipeline serial oracle)).tether_dun_required = "0") := by
  by_cases h2 : run_adb_command serial dunOffArgs oracle = true
  · by_cases h3 : run_adb_command serial rndisArgs oracle = true
    · cases h1 : run_adb_command serial rootArgs oracle <;>
        cases h4 : run_adb_command serial offloadOffArgs oracle <;>
        refine ⟨?_, ?_, ?_, ?_, ?_, ?_⟩ <;>
        simp [enablePipeline, runStep, h1, h2, h3, h4, applyTrace, applyStep,
          apply_root, apply_dunOff, apply_rndis, apply_offloadOff]
    · rw [Bool.not_eq_true] at h3
      cases h1 : run_adb_command serial rootArgs oracle <;>
        refine ⟨?_, ?_, ?_, ?_, ?_, ?_⟩ <;>
        simp [enablePipeline, runStep, h1, h2, h3, applyTrace, applyStep,
          apply_root, apply_dunOff, apply_rndis]
  · rw [Bool.not_eq_true] at h2
    cases h1 : run_adb_command serial rootArgs oracle <;>
      refine ⟨?_, ?_, ?_, ?_, ?_, ?_⟩ <;>
      simp [enablePipeline, runStep, h1, h2, applyTrace, applyStep,
        apply_root, apply_dunOff]

/-- Witness for enable_pipeline_short_circuit: with a failing DUN step
the pipeline spawns exactly the root and DUN steps. -/
theorem enable_pipeline_short_circuit_witness :
    run_adb_command "SER1" dunOffArgs dunFailsOracle = false ∧
    enablePipeline "SER1" dunFailsOracle =
      [runStep "SER1" rootArgs dunFailsOracle, runStep "SER1" dunOffArgs dunFailsOracle] := by
  refine ⟨by decide, ?_⟩
  exact (enable_pipeline_short_circuit "SER1" dunFailsOracle ⟨"mtp,adb", "1", "0"⟩).2.1
    (by decide)

/-! ## Claim C3 -/

/-- Claim C3: the disable pipeline resets the offload-disabled flag,
then restores the DUN-required policy, then restores the default
multi-function USB set (mtp,adb), in that order; each later step is
spawned only if the previous step succeeded; the spawned commands are
always an initial segment of that fixed sequence (no rollback
command); and a successful first step is not rolled back by a later
failure: the flag it wrote survives to the end of the pipeline. -/
theorem disable_pipeline_short_circuit (serial : String) (oracle : Oracle)
    (d : DeviceSettings) :
    (disablePipeline serial oracle).take 1 = [runStep serial offloadRestoreArgs oracle] ∧
    (run_adb_command serial offloadRestoreArgs oracle = false →
      disablePipeline serial oracle = [runStep serial offloadRestoreArgs oracle]) ∧
    (run_adb_command serial offloadRestoreArgs oracle = true →
      run_adb_command serial dunRestoreArgs oracle = false →
      disablePipeline serial oracle =
        [runStep serial offloadRestoreArgs oracle, runStep serial dunRestoreArgs oracle]) ∧
    (run_adb_command serial offloadRestoreArgs oracle = true →
      run_adb_command serial dunRestoreArgs oracle = true →
      disablePipeline serial oracle =
        [runStep serial offloadRestoreArgs oracle, runStep serial dunRestoreArgs oracle,
          runStep serial mtpAdbArgs oracle]) ∧
    ((disablePipeline serial oracle).map StepResult.cmd =
      ([offloadRestoreArgs, dunRestoreArgs, mtpAdbArgs].map (fullCommand serial)).take
        (disablePipeline serial oracle).length) ∧
    (run_adb_command serial offloadRestoreArgs oracle = true →
      (applyTrace d (disablePipeline serial oracle)).tether_offload_disabled = "0") := by
  by_cases h1 : run_adb_command serial offloadRestoreArgs oracle = true
  · by_cases h2 : run_adb_command serial dunRestoreArgs oracle = true
    · cases h3 : run_adb_command serial mtpAdbArgs oracle <;>
        refine ⟨?_, ?_, ?_, ?_, ?_, ?_⟩ <;>
        simp [disablePipeline, runStep, h1, h2, h3, applyTrace, applyStep,
          apply_offloadRestore, apply_dunRestore, apply_mtpAdb]
    · rw [Bool.not_eq_true] at h2
      refine ⟨?_, ?_, ?_, ?_, ?_, ?_⟩ <;>
        simp [disablePipeline, runStep, h1, h2, applyTrace, applyStep,
          apply_offloadRestore, apply_dunRestore]
  · rw [Bool.not_eq_true] at h1
    refine ⟨?_, ?_, ?_, ?_, ?_, ?_⟩ <;>
      simp [disablePipeline, runStep, h1, applyTrace, applyStep,
        apply_offloadRestore]

/-- Witness for disable_pipeline_short_circuit: with every spawn
succeeding the pipeline runs its three steps in order. -/
theorem disable_pipeline_short_circuit_witness :
    run_adb_command "SER1" offloadRestoreArgs allOkOracle = true ∧
    run_adb_command "SER1" dunRestoreArgs allOkOracle = true ∧
    disablePipeline "SER1" allOkOracle =
      [runStep "SER1" offloadRestoreArgs allOkOracle,
        runStep "SER1" dunRestoreArgs allOkOracle,
        runStep "SER1" mtpAdbArgs allOkOracle] := by
  refine ⟨by decide, by decide, ?_⟩
  exact (disable_pipeline_short_circuit "SER1" allOkOracle ⟨"rndis", "0", "1"⟩).2.2.2.1
    (by decide) (by decide)

/-! ## Claim C4 -/

/-- Claim C4: for a ready session (serial bound, adb_ready true), if
every step of the enable pipeline and then of the disable pipeline
succeeds, the device USB function setting ends at the default
multi-function value mtp,adb; in particular a device that started at
the default has its original value restored. -/
theorem enable_disable_round_trip (serial : String) (oracle : Oracle) (d : DeviceSettings)
    (hs : serial ≠ "") (hall : ∀ cmd, spawnSucceeds oracle cmd = true) :
    (applyTrace (applyTrace d (on_button_pressed "enable-btn" serial true oracle).1)
        (on_button_pressed "disable-btn" serial true oracle).1).usbFunctions = "mtp,adb" ∧
    (d.usbFunctions = "mtp,adb" →
      (applyTrace (applyTrace d (on_button_pressed "enable-btn" serial true oracle).1)
          (on_button_pressed "disable-btn" serial true oracle).1).usbFunctions =
        d.usbFunctions) := by
  have hb : (serial == "") = false := by
    cases h : serial == "" with
    | true => exact absurd (by simpa using h) hs
    | false => rfl
  have hr : ∀ args, run_adb_command serial args oracle = true :=
    fun args => hall (fullCommand serial args)
  constructor
  · simp [on_button_pressed, hb, enablePipeline, disablePipeline, runStep, hr,
      applyTrace, applyStep, apply_root, apply_dunOff, apply_rndis,
      apply_offloadOff, apply_offloadRestore, apply_dunRestore, apply_mtpAdb]
  · intro hd
    simp [on_button_pressed, hb, enablePipeline, disablePipeline, runStep, hr,
      applyTrace, applyStep, apply_root, apply_dunOff, apply_rndis,
      apply_offloadOff, apply_offloadRestore, apply_dunRestore, apply_mtpAdb, hd]

/-- Witness for enable_disable_round_trip: a concrete ready session in
an all-succeeding world restores the default USB function set. -/
theorem enable_disable_round_trip_witness :
    (applyTrace (applyTrace ⟨"mtp,adb", "1", "0"⟩
        (on_button_pressed "enable-btn" "SER1" true allOkOracle).1)
      (on_button_pressed "disable-btn" "SER1" true allOkOracle).1).usbFunctions =
      "mtp,adb" :=
  (enable_disable_round_trip "SER1" allOkOracle ⟨"mtp,adb", "1", "0"⟩ (by decide)
    (fun _ => rfl)).1

/-! ## Serial stability and refresh idempotence -/

lemma authProbe_serial (s : String) (oracle : Oracle) :
    (authProbe s oracle).serial = s := by
  unfold authProbe
  cases oracle [ADB_PATH, "-s", s, "shell", "echo", "test"] with
  | ok t => by_cases h : strContains t.stderr unauthorizedMarker <;> simp [h]
  | notFound => rfl
  | failed => rfl

lemma check_serial_stable (serial : String) (oracle : Oracle) (h : serial ≠ "") :
    (check_adb_connection serial oracle).serial = serial := by
  have hb : (serial == "") = false := by
    cases hx : serial == "" with
    | true => exact absurd (by simpa using hx) h
    | false => rfl
  cases hdev : oracle [ADB_PATH, "devices"] with
  | notFound => simp [check_adb_connection, hdev]
  | failed => simp [check_adb_connection, hdev]
  | ok o =>
    cases hd : parseDevices o.stdout with
    | nil => simp [check_adb_connection, hdev, hd]
    | cons d ds =>
      by_cases hc : serial ∈ d :: ds
      · rcases List.mem_cons.mp hc with h1 | h1
        · subst h1
          simp [check_adb_connection, hdev, hd, hb, authProbe_serial]
        · simp [check_adb_connection, hdev, hd, hb, h1, authProbe_serial]
      · have hm1 : ¬serial = d := fun he => hc (he ▸ List.mem_cons_self d ds)
        have hm2 : serial ∉ ds := fun he => hc (List.mem_cons_of_mem d he)
        simp [check_adb_connection, hdev, hd, hb, hm1, hm2]

lemma check_idempotent (serial : String) (oracle : Oracle) :
    check_adb_connection (check_adb_connection serial oracle).serial oracle =
      check_adb_connection serial oracle := by
  cases hdev : oracle [ADB_PATH, "devices"] with
  | notFound => simp [check_adb_connection, hdev]
  | failed => simp [check_adb_connection, hdev]
  | ok o =>
    cases hd : parseDevices o.stdout with
    | nil => simp [check_adb_connection, hdev, hd]
    | cons d ds =>
      by_cases hse : serial == ""
      · cases ds with
        | cons e es => simp [check_adb_connection, hdev, hd, hse]
        | nil =>
          have h1 : check_adb_connection serial oracle = authProbe d oracle := by
            simp [check_adb_connection, hdev, hd, hse]
          rw [h1, authProbe_serial]
          by_cases hde : d == ""
          · simp [check_adb_connection, hdev, hd, hde]
          · simp [check_adb_connection, hdev, hd, hde]
      · by_cases hc : serial ∈ d :: ds
        · have h1 : check_adb_connection serial oracle = authProbe serial oracle := by
            rcases List.mem_cons.mp hc with h2 | h2
            · subst h2
              simp [check_adb_connection, hdev, hd, hse]
            · simp [check_adb_connection, hdev, hd, hse, h2]
          rw [h1, authProbe_serial]
          exact h1
        · have hm1 : ¬serial = d := fun he => hc (he ▸ List.mem_cons_self d ds)
          have hm2 : serial ∉ ds := fun he => hc (List.mem_cons_of_mem d he)
          have h1 : check_adb_connection serial oracle =
              ⟨serial, .SpecifiedNotFound, serial, false⟩ := by
            simp [check_adb_connection, hdev, hd, hse, hm1, hm2]
          rw [h1]
          exact h1

/-! ## Claim C8 -/

/-- Claim C8: with a fixed external world, running
action_refresh_status twice in a row yields identical results: the
second refresh reproduces the connection record and the interface
status of the first, even when the first call resolved the session
serial from unset to a concrete device. -/
theorem refresh_idempotent (st : AppState) (oracle : Oracle) :
    action_refresh_status (action_refresh_status st oracle) oracle =
      action_refresh_status st oracle := by
  unfold action_refresh_status
  simp only [check_idempotent]

/-! ## Claim C9 -/

lemma runOp_serial_stable (st : AppState) (op : Op) (h : st.serial ≠ "") :
    (runOp st op).serial = st.serial := by
  cases op with
  | refresh oracle => simpa [runOp, action_refresh_status] using check_serial_stable st.serial oracle h
  | button btn oracle =>
    by_cases hr : (on_button_pressed btn st.serial st.ready oracle).2 <;>
      simp [runOp, hr, action_refresh_status, check_serial_stable st.serial oracle h]

/-- Claim C9: across any sequence of refresh and button operations, a
session serial that is already bound (non-empty) is never reassigned:
discovery auto-resolution only ever moves the serial from unset to a
resolved value. -/
theorem serial_resolved_once (ops : List Op) (st : AppState) (h : st.serial ≠ "") :
    (runOps st ops).serial = st.serial := by
  induction ops generalizing st with
  | nil => rfl
  | cons op rest ih =>
    have hstep := runOp_serial_stable st op h
    have : (runOp st op).serial ≠ "" := by rw [hstep]; exact h
    calc (runOps st (op :: rest)).serial
        = (runOps (runOp st op) rest).serial := rfl
      _ = (runOp st op).serial := ih (runOp st op) this
      _ = st.serial := hstep

/-- Witness for serial_resolved_once: a bound serial survives a
refresh, an enable press and another refresh in a world that keeps
answering with a different attached device. -/
theorem serial_resolved_once_witness :
    (runOps ⟨"XYZ77", .Connected, "XYZ77", true, .NotDetected⟩
        [.refresh noisyProbeOracle, .button "enable-btn" noisyProbeOracle,
          .refresh noisyProbeOracle]).serial = "XYZ77" :=
  serial_resolved_once
    [.refresh noisyProbeOracle, .button "enable-btn" noisyProbeOracle,
      .refresh noisyProbeOracle]
    ⟨"XYZ77", .Connected, "XYZ77", true, .NotDetected⟩ (by decide)

/-! ## Claim C10 -/

/-- Claim C10: once the serial is resolved, the authorization probe
marks the session ready and Connected exactly when its captured
stderr does not contain the marker "device unauthorized"; the exit
code of the probe (the outcome t here has an arbitrary exit code) is
never examined. -/
theorem auth_ignores_exit_code (serial : String) (oracle : Oracle) (o t : CommandOutcome)
    (hdev : oracle [ADB_PATH, "devices"] = .ok o)
    (hmem : serial ∈ parseDevices o.stdout)
    (hs : serial ≠ "")
    (hecho : oracle [ADB_PATH, "-s", serial, "shell", "echo", "test"] = .ok t)
    (hstderr : strContains t.stderr unauthorizedMarker = false) :
    check_adb_connection serial oracle = ⟨serial, .Connected, serial, true⟩ := by
  have hb : (serial == "") = false := by
    cases hx : serial == "" with
    | true => exact absurd (by simpa using hx) hs
    | false => rfl
  cases hd : parseDevices o.stdout with
  | nil => rw [hd] at hmem; exact absurd hmem (List.not_mem_nil serial)
  | cons d ds =>
    rw [hd] at hmem
    rcases List.mem_cons.mp hmem with h1 | h1
    · subst h1
      simp [check_adb_connection, hdev, hd, hb, authProbe, hecho, hstderr]
    · simp [check_adb_connection, hdev, hd, hb, h1, authProbe, hecho, hstderr]

/-- Witness for auth_ignores_exit_code: the echo probe exits with
code 1 and unrelated stderr text, yet the session is Connected and
ready. -/
theorem auth_ignores_exit_code_witness :
    check_adb_connection "XYZ77" noisyProbeOracle = ⟨"XYZ77", .Connected, "XYZ77", true⟩ :=
  auth_ignores_exit_code "XYZ77" noisyProbeOracle
    ⟨0, "List of devices attached\nXYZ77\tdevice", ""⟩ ⟨1, "", "error: closed"⟩
    (by decide) (by decide) (by decide) (by decide) (by decide)

/-! ## Claim C5 -/

/-- Claim C5 is false on the code: the discovery filter tests the
whole line for the substring "device", not the state field.  On an
output whose only non-header line is mydevice1 followed by tab and
offline, no state field contains the token "device" (so the claim
demands a Disconnected, not-ready classification), yet discovery
adopts the offline device and the session ends Connected and ready. -/
theorem discovery_state_field_counterexample :
    specDeviceSerials offlineSerialOut = [] ∧
    check_adb_connection "" offlineSerialOracle =
      ⟨"mydevice1", .Connected, "mydevice1", true⟩ := by
  decide

/-- Claim C5 (amended): for every discovery output in which no line
contains the substring "device" anywhere in the whole line (other
than inside the header text), discovery classifies the result as no
device found: status Disconnected, info N/A, ready false, serial
unchanged.  Lines with unauthorized or offline state fields are
excluded from the attached-device set provided the rest of the line
does not itself contain the text device. -/
theorem discovery_no_device_lines (serial : String) (oracle : Oracle) (o : CommandOutcome)
    (hdev : oracle [ADB_PATH, "devices"] = .ok o)
    (hnone : ∀ l ∈ splitOnNl (stripWS o.stdout.toList),
        containsSub l ("device".toList) = false ∨
        containsSub l ("List of devices attached".toList) = true) :
    check_adb_connection serial oracle = ⟨serial, .Disconnected, "N/A", false⟩ := by
  have hp : parseDevices o.stdout = [] := by
    unfold parseDevices
    rw [List.map_eq_nil_iff, List.filter_eq_nil_iff]
    intro l hl
    rcases hnone l hl with h | h <;> intro hx <;> rw [h] at hx <;> simp at hx
  simp [check_adb_connection, hdev, hp]

/-- Witness for discovery_no_device_lines: an output with one
unauthorized and one offline line yields Disconnected. -/
theorem discovery_no_device_lines_witness :
    check_adb_connection "" unauthorizedOnlyOracle = ⟨"", .Disconnected, "N/A", false⟩ :=
  discovery_no_device_lines "" unauthorizedOnlyOracle ⟨0, unauthorizedOnlyOut, ""⟩
    (by decide) (by decide)

/-! ## Claim C6 -/

/-- Claim C6 is false on the code: with two attached devices plus an
offline line whose serial contains the text device, the ambiguity
report lists all three parsed serials, not exactly the set of
device-state serials (A1, B2 per the spec reading); the ready flag
and the unset serial do behave as claimed. -/
theorem discovery_ambiguous_counterexample :
    specDeviceSerials ambiguousOut = ["A1", "B2"] ∧
    check_adb_connection "" ambiguousOracle =
      ⟨"", .MultipleDevices, "Please specify serial (found: A1, B2, mydevice9)", false⟩ ∧
    strContains "Please specify serial (found: A1, B2, mydevice9)" "mydevice9" = true := by
  decide

/-- Claim C6 (amended): for every discovery output from which the
line filter extracts two or more serials, with no configured serial,
discovery fails as ambiguous: status MultipleDevices, ready false,
the serial stays unset, and the report lists exactly the serials the
filter extracted (lines containing the substring "device" anywhere,
header excluded), comma separated, in order. -/
theorem discovery_ambiguous_reports_parsed (oracle : Oracle) (o : CommandOutcome)
    (d1 d2 : String) (ds : List String)
    (hdev : oracle [ADB_PATH, "devices"] = .ok o)
    (hparse : parseDevices o.stdout = d1 :: d2 :: ds) :
    check_adb_connection "" oracle =
      ⟨"", .MultipleDevices,
        "Please specify serial (found: " ++ String.intercalate ", " (d1 :: d2 :: ds) ++ ")",
        false⟩ := by
  simp [check_adb_connection, hdev, hparse]

/-- Witness for discovery_ambiguous_reports_parsed at the concrete
three-serial scenario. -/
theorem discovery_ambiguous_reports_parsed_witness :
    check_adb_connection "" ambiguousOracle =
      ⟨"", .MultipleDevices,
        "Please specify serial (found: " ++
          String.intercalate ", " ["A1", "B2", "mydevice9"] ++ ")",
        false⟩ :=
  discovery_ambiguous_reports_parsed ambiguousOracle ⟨0, ambiguousOut, ""⟩
    "A1" "B2" ["mydevice9"] (by decide) (by decide)

/-! ## Claim C7 -/

/-- Claim C7 is false on the code: the link pattern requires the
consecutive flag text BROADCAST,MULTICAST,UP, not flag-set inclusion.
A promiscuous usb0 interface is listed by iproute2 with PROMISC
between MULTICAST and UP; its name matches the naming convention and
its flag list contains BROADCAST, MULTICAST and UP (so the claim
demands selection), yet the probe reports NotDetected. -/
theorem probe_flag_pattern_counterexample :
    specLinkFlags promiscLinkOut.toList =
      ["BROADCAST", "MULTICAST", "PROMISC", "UP", "LOWER_UP"] ∧
    specLinkSelectable "usb0" (specLinkFlags promiscLinkOut.toList) = true ∧
    get_linux_interface_status promiscLinkOracle = .NotDetected := by
  decide

/-- Claim C7 (amended): the probe selects the first (leftmost) link
the embedded pattern matches: a digit-prefixed entry whose name has a
usb, rndis or enp-style form and whose bracketed flag text contains
the consecutive text BROADCAST,MULTICAST,UP (rather than flag-set
inclusion).  With no match it reports NotDetected; with a match and
no IPv4 address it reports DetectedNoIP; with a match and at least
one address it reports Detected with the first address (the worked
example yields usb0 with 192.168.42.1); a missing listing tool yields
ProbeError, which is distinct from NotDetected. -/
theorem probe_regex_semantics (oracle : Oracle) (o : CommandOutcome)
    (hlink : oracle ["ip", "link", "show"] = .ok o) :
    (tetherLinkSearch (stripWS o.stdout.toList) = none →
      get_linux_interface_status oracle = .NotDetected) ∧
    (∀ name o2, tetherLinkSearch (stripWS o.stdout.toList) = some name →
      oracle ["ip", "-4", "addr", "show", "dev", name.asString] = .ok o2 →
      (inetSearch (stripWS o2.stdout.toList) = none →
        get_linux_interface_status oracle = .DetectedNoIP name.asString) ∧
      (∀ ip, inetSearch (stripWS o2.stdout.toList) = some ip →
        get_linux_interface_status oracle = .Detected name.asString ip.asString)) ∧
    (∀ oracle2 : Oracle, oracle2 ["ip", "link", "show"] = SpawnResult.notFound →
      get_linux_interface_status oracle2 = .ProbeError) ∧
    IfaceState.ProbeError ≠ IfaceState.NotDetected ∧
    get_linux_interface_status exampleLinkOracle = .Detected "usb0" "192.168.42.1" := by
  refine ⟨?_, ?_, ?_, by decide, by decide⟩
  · intro hs
    have hs2 : tetherLinkSearch (stripWS (String.data o.stdout)) = none := hs
    simp [get_linux_interface_status, hlink, hs2]
  · intro name o2 hs haddr
    have hs2 : tetherLinkSearch (stripWS (String.data o.stdout)) = some name := hs
    constructor
    · intro hip
      have hip2 : inetSearch (stripWS (String.data o2.stdout)) = none := hip
      simp [get_linux_interface_status, hlink, hs2, haddr, hip2]
    · intro ip hip
      have hip2 : inetSearch (stripWS (String.data o2.stdout)) = some ip := hip
      simp [get_linux_interface_status, hlink, hs2, haddr, hip2]
  · intro oracle2 h2
    simp [get_linux_interface_status, h2]

/-- Witness for probe_regex_semantics: a listing with only a loopback
link yields NotDetected. -/
theorem probe_regex_semantics_witness :
    get_linux_interface_status noLinkOracle = IfaceState.NotDetected :=
  (probe_regex_semantics noLinkOracle ⟨0, noLinkOut, ""⟩ (by decide)).1 (by decide)

end Tether

section Sanity

example :
    Tether.parseDevices "List of devices attached\nABC123\tdevice\n" = ["ABC123"] := by
  decide

example :
    (Tether.check_adb_connection ""
      (fun cmd =>
        if cmd == ["adb", "devices"] then
          .ok ⟨0, "List of devices attached\nABC123\tdevice\n", ""⟩
        else if cmd == ["adb", "-s", "ABC123", "shell", "echo", "test"] then
          .ok ⟨0, "test\n", ""⟩
        else .notFound)) =
    ⟨"ABC123", .Connected, "ABC123", true⟩ := by
  decide

example :
    Tether.tetherLinkSearch
      ("1: lo: <LOOPBACK,UP,LOWER_UP> mtu 65536\n3: usb0: <BROADCAST,MULTICAST,UP,LOWER_UP> mtu 1500").toList
    = some ("usb0".toList) := by
  decide

example :
    Tether.tetherLinkSearch
      ("3: usb0: <BROADCAST,MULTICAST,PROMISC,UP,LOWER_UP> mtu 1500").toList
    = none := by
  decide

example :
    Tether.tetherLinkSearch
      ("2: enp0s20u1: <BROADCAST,MULTICAST,UP> mtu 1500").toList
    = some ("enp0s20u1".toList) := by
  decide

example :
    Tether.inetSearch ("inet 192.168.42.1/24 brd 192.168.42.255").toList
    = some ("192.168.42.1".toList) := by
  decide

example :
    Tether.inetSearch ("inet 1234.5.6.7").toList = none := by
  decide

end Sanity
